import Mathlib

/-!
Verification development for the HR interview bot
(`HR_interview_bot/models/rag_model.py`).

The Python module provides four pieces of logic that we embed shallowly:

* `provide_feedback(answers)`: counts "substantive" answers (stripped
  length > 20) and maps the count to one of three feedback messages.
* `generate_questions_for_job(job_title)`: a dictionary lookup from the
  (stripped) job title to a fixed list of 6 interview questions, with a
  4-question generic fallback that interpolates the title.
* `process_resume_and_match_jobs(pdf_file)`: fetches the job corpus,
  special-cases the empty corpus, and otherwise ranks jobs by TF-IDF
  cosine similarity against the resume, returning the top 5; a
  `ValueError` raised by vectorization is caught and turned into a
  message entry.  The external vectorizer call is a parameter of the
  embedding (`Except String (List ℚ)`), mirroring the `try`/`except`.
* the TF-IDF cosine similarity itself is computed by an external
  library (`sklearn`); it is modelled separately over `ℝ` following the
  algorithm the specification describes.

Python's `str.strip` is modelled at the character-list level
(`stripList`), and Python's float comparisons `score >= len * 0.8` /
`score >= len * 0.5` are modelled by the exact integer comparisons
`score * 5 ≥ len * 4` / `score * 2 ≥ len`: for the integer operands
that occur here the double-precision products `len * 0.8` and
`len * 0.5` compare identically to the exact rationals (the relative
rounding error of `len * 0.8` is below half an ulp away from `4*len/5`,
so the comparison against an integer `score` is unaffected: when `5 ∤ len`
the threshold is at distance ≥ 1/5 from every integer, and when `5 ∣ len`
the product rounds to the exact integer `4*len/5`; `0.5` is exact in
binary).
-/

/-- Model of Python `str.strip` on a character list: drop whitespace from
the front, then from the back (via reverse). -/
def stripList (l : List Char) : List Char :=
  ((l.dropWhile Char.isWhitespace).reverse.dropWhile Char.isWhitespace).reverse

/-- Model of Python `str.strip`, as used by `rag_model.py` (`answer.strip()`,
`job_title.strip()`). -/
def pyStrip (s : String) : String :=
  String.mk (stripList s.data)

/-- The feedback message produced when `score >= len(answers) * 0.8`
(rag_model.py line 1125). -/
def excellentMsg : String := "Excellent! You have strong responses for this role."

/-- The feedback message produced when `score >= len(answers) * 0.5`
(rag_model.py line 1127). -/
def goodMsg : String := "Good! But there\x27s room for improvement in some answers."

/-- The feedback message produced otherwise (rag_model.py line 1129). -/
def needsMsg : String := "Needs improvement. Consider revising your answers."

/-- The score accumulated by the loop in `provide_feedback`: the number of
answers whose stripped length exceeds 20 characters (rag_model.py
lines 1118-1121). -/
def substantiveCount (answers : List String) : ℕ :=
  (answers.filter (fun a => (pyStrip a).length > 20)).length

/-- Embedding of `provide_feedback` (rag_model.py lines 1106-1131). -/
def provide_feedback (answers : List String) : ℕ × String :=
  let score := substantiveCount answers
  let feedback :=
    if score * 5 ≥ answers.length * 4 then excellentMsg
    else if score * 2 ≥ answers.length then goodMsg
    else needsMsg
  (score, feedback)

/-- An entry of the `matched_jobs` list returned by
`process_resume_and_match_jobs`: either a job/similarity pair (the normal
case, rag_model.py lines 137-140) or a plain message string (the empty-corpus
sentinel of line 125 and the caught-`ValueError` entry of line 142). -/
inductive MatchEntry where
  | job (jobTitle : String) (similarity : ℚ)
  | message (text : String)
deriving DecidableEq

/-- The similarity carried by a job entry (0 for message entries). -/
def entrySim : MatchEntry → ℚ
  | MatchEntry.job _ s => s
  | MatchEntry.message _ => 0

/-- Whether an entry is a job/similarity pair rather than a message. -/
def isJobEntry : MatchEntry → Bool
  | MatchEntry.job _ _ => true
  | MatchEntry.message _ => false

/-- Model of `cosine_similarities.argsort()`: the indices
`0, ..., n-1` ordered by ascending score.  NumPy's default sort is unstable,
so any ascending reordering is a faithful model; we use insertion sort. -/
def argsortAsc (scores : List ℚ) : List ℕ :=
  (List.range scores.length).insertionSort
    (fun i j => scores.getD i 0 ≤ scores.getD j 0)

/-- Model of `cosine_similarities.argsort()[-5:][::-1]` (rag_model.py
line 135): the last (at most) five indices of the ascending argsort, reversed,
i.e. the top-5 indices by descending score. -/
def topIndices (scores : List ℚ) : List ℕ :=
  ((argsortAsc scores).drop (scores.length - 5)).reverse

/-- Embedding of `process_resume_and_match_jobs` (rag_model.py
lines 105-144) from the corpus fetch onward.  `jobTitles` and
`jobDescriptions` are the lists read from the ChromaDB collection; the
external `sklearn` vectorization + cosine computation inside the `try`
block is a parameter: `Except.ok sims` is a successful run producing one
cosine similarity per job description, `Except.error e` is a raised
`ValueError` with message `e`, which the `except` clause turns into a
message entry.  The function is total: no exception escapes it. -/
def process_resume_and_match_jobs (jobTitles jobDescriptions : List String)
    (vectorize : Except String (List ℚ)) : List MatchEntry :=
  if jobDescriptions.isEmpty then
    [MatchEntry.message "No job descriptions available in ChromaDB."]
  else
    match vectorize with
    | Except.error e =>
        [MatchEntry.message ("Error in processing job matching: " ++ e)]
    | Except.ok cosine_similarities =>
        (topIndices cosine_similarities).map (fun i =>
          MatchEntry.job (jobTitles.getD i "") (cosine_similarities.getD i 0))

/-! The question bank: the 76 per-role question functions of rag_model.py
(lines 148-1008), the lookup dictionary built inside
`generate_questions_for_job` (lines 1012-1089, in source order), and the
module-level `job_titles` list (lines 21-43). -/

def generate_software_engineer_questions : List String :=
  ["What are the core principles of object-oriented programming (OOP)?",
   "Explain the concept of design patterns. Can you provide an example?",
   "Describe how you manage code versioning using Git.",
   "How do you ensure the quality and maintainability of your code?",
   "What testing strategies do you use during development?",
   "Can you explain the differences between functional and imperative programming?"]

def generate_data_scientist_questions : List String :=
  ["What data cleaning techniques do you typically use?",
   "How do you approach exploratory data analysis (EDA)?",
   "What is your experience with machine learning algorithms like regression or classification?",
   "Explain a time you optimized a model to improve accuracy.",
   "Which tools and frameworks do you prefer for data visualization?",
   "How do you deal with imbalanced datasets?"]

def generate_cloud_engineer_questions : List String :=
  ["What is your experience with cloud platforms like AWS, Azure, or Google Cloud?",
   "How do you ensure high availability and fault tolerance in the cloud?",
   "What is the difference between IaaS, PaaS, and SaaS?",
   "Explain how you approach security in cloud environments.",
   "What is your experience with containerization and orchestration tools like Docker and Kubernetes?",
   "How do you monitor cloud infrastructure and services?"]

def generate_full_stack_developer_questions : List String :=
  ["How do you ensure communication between the front-end and back-end of a full-stack application?",
   "What technologies do you use for building RESTful APIs?",
   "How would you handle user authentication and authorization in a web application?",
   "Explain the differences between SQL and NoSQL databases.",
   "How do you optimize the performance of both front-end and back-end systems?",
   "Can you walk us through your development process for a full-stack application?"]

def generate_devops_engineer_questions : List String :=
  ["What is your experience with continuous integration/continuous deployment (CI/CD)?",
   "How do you monitor system performance and ensure reliability?",
   "Can you explain the concept of infrastructure as code (IaC)?",
   "What tools do you use for automation and configuration management?",
   "How do you handle scaling in a cloud environment?",
   "Explain your approach to disaster recovery and business continuity."]

def generate_front_end_developer_questions : List String :=
  ["What is your experience with front-end frameworks like React, Angular, or Vue?",
   "How do you ensure responsive design across multiple devices?",
   "What is the difference between server-side rendering and client-side rendering?",
   "How do you optimize the performance of a front-end application?",
   "Can you explain the concept of state management in a front-end application?",
   "How do you handle cross-browser compatibility issues?"]

def generate_back_end_developer_questions : List String :=
  ["What is your experience with back-end technologies like Node.js, Python, or Ruby?",
   "How do you design scalable and maintainable APIs?",
   "Can you explain how you handle database migrations?",
   "What strategies do you use for error handling and logging?",
   "How do you ensure the security of your back-end systems?",
   "What is your approach to optimizing database queries for performance?"]

def generate_mobile_application_developer_questions : List String :=
  ["What is your experience with iOS and Android development?",
   "How do you manage app performance on different mobile devices?",
   "Can you explain the difference between native and hybrid mobile applications?",
   "What tools and frameworks do you use for mobile app testing?",
   "How do you handle offline functionality in mobile applications?",
   "What is your experience with mobile app security?"]

def generate_cybersecurity_analyst_questions : List String :=
  ["What is your experience with vulnerability assessments and penetration testing?",
   "How do you stay updated on the latest security threats and trends?",
   "Can you explain the difference between symmetric and asymmetric encryption?",
   "What strategies do you use to secure an organization\x27s network?",
   "How do you approach incident response and handling a security breach?",
   "What tools do you use for network security monitoring?"]

def generate_database_administrator_questions : List String :=
  ["What is your experience with database optimization and indexing?",
   "How do you handle database backups and recovery?",
   "Explain your experience with database clustering and replication.",
   "What is your approach to data security and encryption in databases?",
   "How do you ensure database high availability and fault tolerance?",
   "Can you explain the differences between relational and non-relational databases?"]

def generate_system_administrator_questions : List String :=
  ["What is your experience with system monitoring and troubleshooting?",
   "How do you manage and configure servers for scalability?",
   "Can you explain the concept of virtualization and your experience with it?",
   "What tools do you use for automation and configuration management?",
   "How do you ensure the security of the systems you manage?",
   "Explain your experience with network configuration and firewall management."]

def generate_network_engineer_questions : List String :=
  ["What is your experience with network protocols like TCP/IP and DNS?",
   "How do you troubleshoot network connectivity issues?",
   "What is your experience with network performance monitoring tools?",
   "Can you explain how you would design a network infrastructure for a company?",
   "What strategies do you use to secure a network?",
   "How do you ensure high availability in network infrastructure?"]

def generate_it_support_specialist_questions : List String :=
  ["How do you prioritize and manage multiple support tickets?",
   "Can you explain how you diagnose hardware and software issues?",
   "What tools do you use for remote troubleshooting?",
   "How do you manage user permissions and access control?",
   "What is your approach to maintaining system documentation?",
   "How do you ensure a high level of customer satisfaction in support?"]

def generate_web_developer_questions : List String :=
  ["What are the key differences between HTML5 and its previous versions?",
   "How do you ensure that a website is responsive across different devices?",
   "Explain the box model in CSS and how it affects layout design.",
   "What is the difference between synchronous and asynchronous JavaScript?",
   "Describe how you would optimize a website for performance and SEO.",
   "What tools or frameworks do you use for front-end development?"]

def generate_product_manager_questions : List String :=
  ["What strategies do you use for gathering product requirements?",
   "How do you prioritize features in the product roadmap?",
   "Can you explain your experience with product lifecycle management?",
   "How do you collaborate with engineering, marketing, and design teams?",
   "What is your experience with agile methodologies in product development?",
   "How do you measure the success of a product after launch?"]

def generate_machine_learning_engineer_questions : List String :=
  ["What machine learning algorithms are you most comfortable with?",
   "How do you handle missing data in your models?",
   "What techniques do you use for feature selection?",
   "Explain a challenging machine learning project you worked on and your approach to solving it.",
   "What is your experience with deep learning frameworks like TensorFlow or PyTorch?",
   "How do you evaluate the performance of your machine learning models?"]

def generate_it_project_manager_questions : List String :=
  ["Describe your approach to managing complex IT projects with tight deadlines.",
   "How do you ensure alignment between stakeholders during a project lifecycle?",
   "Explain how you manage risks and resolve conflicts in an IT project.",
   "Which project management tools do you prefer and why?",
   "How do you ensure your project team remains motivated and productive?",
   "Describe a challenging IT project you managed and how you ensured its success."]

def generate_business_analyst_questions : List String :=
  ["How do you identify and document business requirements effectively?",
   "What techniques do you use to perform gap analysis?",
   "How do you handle conflicting requirements from different stakeholders?",
   "Can you explain a time when you improved a business process significantly?",
   "Which software or tools do you prefer for creating workflows or wireframes?",
   "How do you ensure that your solutions align with organizational goals?"]

def generate_technical_support_engineer_questions : List String :=
  ["How do you troubleshoot and resolve technical issues under pressure?",
   "Describe your experience with handling escalated support tickets.",
   "What tools or software do you prefer for remote troubleshooting?",
   "How do you communicate technical concepts to non-technical users?",
   "Explain a time when you solved a recurring issue in your support role.",
   "How do you stay updated on the latest technologies and troubleshooting techniques?"]

def generate_quality_assurance_engineer_questions : List String :=
  ["How do you design effective test cases for complex applications?",
   "What strategies do you use for ensuring thorough regression testing?",
   "How do you prioritize bugs during the software testing process?",
   "What automation tools have you used, and how do you evaluate their effectiveness?",
   "Describe a time when you identified a critical bug late in the development cycle.",
   "How do you collaborate with developers to improve software quality?"]

def generate_data_engineer_questions : List String :=
  ["How do you design and optimize data pipelines for large-scale datasets?",
   "What experience do you have with distributed systems like Hadoop or Spark?",
   "How do you ensure data quality and integrity in your ETL processes?",
   "What tools or platforms do you use for real-time data processing?",
   "Explain how you have used cloud platforms for data engineering tasks.",
   "How do you manage and secure sensitive data in compliance with regulations?"]

def generate_ai_engineer_questions : List String :=
  ["What is your experience with training and fine-tuning machine learning models?",
   "How do you optimize neural networks for performance and accuracy?",
   "Describe a project where you applied AI to solve a real-world problem.",
   "What frameworks and libraries do you prefer for AI development?",
   "How do you handle bias in AI models during development?",
   "What strategies do you use to deploy AI solutions into production?"]

def generate_ux_ui_designer_questions : List String :=
  ["How do you approach user research to inform your design process?",
   "What tools do you prefer for wireframing and prototyping?",
   "Describe how you have improved the usability of a product through design.",
   "How do you balance user needs with business goals in your designs?",
   "Explain how you collaborate with developers to implement your designs.",
   "What strategies do you use to gather and act on user feedback?"]

def generate_it_consultant_questions : List String :=
  ["How do you assess a company\x27s IT infrastructure to recommend improvements?",
   "Describe a project where you implemented significant IT changes successfully.",
   "What methodologies do you use to ensure IT projects meet business goals?",
   "How do you stay updated with emerging technologies to advise clients?",
   "Explain a time when you had to manage resistance to IT changes.",
   "What tools do you use for conducting IT audits or assessments?"]

def generate_solutions_architect_questions : List String :=
  ["How do you ensure a solution architecture meets both technical and business needs?",
   "Describe your approach to creating scalable and secure system designs.",
   "What cloud platforms do you have experience with, and how have you used them?",
   "How do you handle trade-offs between technical and cost considerations?",
   "Explain a time when you designed a solution that solved a critical problem.",
   "How do you work with stakeholders to validate solution requirements?"]

def generate_it_operations_manager_questions : List String :=
  ["How do you manage and optimize IT operations for maximum efficiency?",
   "What metrics do you track to evaluate IT operational performance?",
   "Describe your approach to managing incident response and minimizing downtime.",
   "How do you ensure compliance with IT policies and regulations?",
   "Explain a time when you successfully managed a major IT infrastructure upgrade.",
   "How do you prioritize IT investments to align with business goals?"]

def generate_cto_questions : List String :=
  ["How do you develop and communicate a clear technology vision for the company?",
   "What strategies do you use to align technology with business objectives?",
   "Describe a time when you led a major technology transformation in an organization.",
   "How do you manage competing priorities for technology investment?",
   "Explain your approach to building and managing a high-performing IT team.",
   "What emerging technologies do you believe will have the biggest impact in the future?"]

def generate_security_engineer_questions : List String :=
  ["How do you approach securing a network against potential threats?",
   "What tools and techniques do you use to conduct penetration testing?",
   "How do you stay updated with the latest cybersecurity vulnerabilities and threats?",
   "Describe a time when you responded to a security breach. What was your process?",
   "What experience do you have with implementing SIEM (Security Information and Event Management) systems?",
   "How do you ensure compliance with data security regulations such as GDPR or HIPAA?"]

def generate_it_auditor_questions : List String :=
  ["How do you evaluate an organizationâ€™s IT systems for compliance and security?",
   "What frameworks or standards do you use for IT audits (e.g., ISO 27001, COBIT)?",
   "Describe a time when you identified a significant risk during an audit. How did you address it?",
   "How do you prioritize tasks when auditing multiple systems or processes?",
   "What tools or software do you use to perform IT audits effectively?",
   "How do you communicate findings and recommendations to non-technical stakeholders?"]

def generate_software_architect_questions : List String :=
  ["How do you design scalable and maintainable software architectures?",
   "What tools and techniques do you use to document system architectures?",
   "Describe your approach to selecting technologies for a new project.",
   "How do you ensure alignment between development teams and architectural goals?",
   "Explain a time when you had to refactor an existing system to improve performance or scalability.",
   "How do you manage technical debt in long-term projects?"]

def generate_scrum_master_questions : List String :=
  ["How do you ensure that your team adheres to Agile principles and Scrum practices?",
   "Describe your process for handling team conflicts during a sprint.",
   "What tools do you use to manage sprint planning and track progress?",
   "How do you measure and improve team velocity over time?",
   "Explain a time when you helped a team overcome obstacles to deliver a project on time.",
   "How do you communicate with stakeholders about project progress and risks?"]

def generate_technical_writer_questions : List String :=
  ["How do you create technical documentation that is accessible to various audiences?",
   "What tools or platforms do you use for writing and managing documentation?",
   "Describe your process for gathering information from subject matter experts.",
   "How do you ensure accuracy and clarity in technical documents?",
   "Can you provide an example of a complex topic you simplified through documentation?",
   "How do you stay updated on tools and trends in technical writing?"]

def generate_network_security_analyst_questions : List String :=
  ["How do you monitor and analyze network traffic for potential security threats?",
   "What tools do you use to detect and mitigate network vulnerabilities?",
   "Describe your process for responding to a DDoS (Distributed Denial of Service) attack.",
   "How do you implement and manage firewalls and intrusion detection systems?",
   "What strategies do you use to educate employees on network security best practices?",
   "How do you ensure compliance with network security standards and regulations?"]

def generate_game_developer_questions : List String :=
  ["What game engines are you proficient in, and how have you used them in projects?",
   "Describe your process for optimizing game performance across platforms.",
   "How do you design engaging gameplay mechanics that enhance the user experience?",
   "What tools do you use for debugging and testing games during development?",
   "Explain how you work with artists and designers to implement game assets.",
   "Describe a challenging bug you encountered during development and how you resolved it."]

def generate_embedded_systems_engineer_questions : List String :=
  ["What microcontrollers or processors have you worked with in your projects?",
   "How do you ensure real-time performance in embedded systems?",
   "Describe your experience with developing firmware for hardware devices.",
   "What debugging tools do you use for testing embedded systems?",
   "How do you optimize power consumption in low-power embedded devices?",
   "Explain a time when you designed a system with strict memory or resource constraints."]

def generate_erp_consultant_questions : List String :=
  ["What ERP platforms have you worked with, and how have you implemented them?",
   "How do you ensure a smooth transition during an ERP system upgrade or migration?",
   "What strategies do you use to customize ERP solutions for specific business needs?",
   "Describe a challenging ERP implementation project and how you managed it.",
   "How do you train employees on using new ERP systems effectively?",
   "What tools do you use for integrating ERP systems with other enterprise applications?"]

def generate_salesforce_developer_questions : List String :=
  ["What experience do you have with developing custom Salesforce applications?",
   "How do you use Apex and Visualforce in your development process?",
   "Describe your approach to integrating Salesforce with external systems.",
   "What tools or strategies do you use to optimize Salesforce performance?",
   "How do you ensure data security and compliance in Salesforce applications?",
   "Explain a time when you customized Salesforce to meet a unique business requirement."]

def generate_big_data_engineer_questions : List String :=
  ["What tools and frameworks do you prefer for handling big data (e.g., Hadoop, Spark)?",
   "How do you design and maintain scalable big data pipelines?",
   "Describe your experience with managing structured and unstructured datasets.",
   "What strategies do you use to ensure data consistency and quality in big data systems?",
   "How have you implemented data security in big data environments?",
   "Explain a challenging big data project you worked on and how you delivered results."]

def generate_bi_developer_questions : List String :=
  ["What BI tools and platforms are you proficient in (e.g., Tableau, Power BI)?",
   "How do you design dashboards that effectively communicate business insights?",
   "Describe your experience with writing complex SQL queries for data analysis.",
   "What strategies do you use to ensure accuracy and reliability in BI reports?",
   "Explain how you work with stakeholders to gather requirements for BI projects.",
   "Describe a time when your BI solution had a significant impact on business decisions."]

def generate_information_security_analyst_questions : List String :=
  ["How do you assess and mitigate security risks within an organization?",
   "What tools do you use for vulnerability scanning and threat detection?",
   "Describe your process for responding to and investigating security incidents.",
   "How do you ensure compliance with information security standards (e.g., ISO 27001)?",
   "Explain a time when you successfully prevented a security breach.",
   "What strategies do you use to educate employees on information security best practices?"]

def generate_robotics_engineer_questions : List String :=
  ["What programming languages and frameworks do you use for robotics development?",
   "Describe your experience with designing and implementing robotic control systems.",
   "How do you integrate sensors and actuators into robotic systems?",
   "What strategies do you use to optimize robot performance in dynamic environments?",
   "Describe a challenging robotics project you worked on and how you overcame obstacles.",
   "How do you approach testing and debugging in robotic systems?"]

def generate_cloud_solutions_architect_questions : List String :=
  ["What experience do you have with designing cloud-based architectures for scalability and security?",
   "Describe your approach to choosing between different cloud service providers (e.g., AWS, Azure, GCP).",
   "How do you ensure compliance with data security and privacy regulations in cloud solutions?",
   "What tools and techniques do you use for cost optimization in cloud architectures?",
   "Explain a complex cloud migration project you worked on and how you managed it.",
   "How do you handle hybrid cloud or multi-cloud environments effectively?"]

def generate_computer_vision_engineer_questions : List String :=
  ["What tools and frameworks do you use for computer vision development (e.g., OpenCV, TensorFlow)?",
   "Describe your experience with designing and training deep learning models for vision tasks.",
   "How do you optimize computer vision algorithms for real-time performance?",
   "What strategies do you use to collect and preprocess data for computer vision projects?",
   "Explain a challenging computer vision problem you solved and the techniques you used.",
   "How do you ensure the robustness and accuracy of your computer vision models?"]

def generate_site_reliability_engineer_questions : List String :=
  ["How do you monitor and maintain system reliability in a distributed environment?",
   "Describe your experience with incident response and root cause analysis.",
   "What tools and techniques do you use to automate infrastructure and deployment?",
   "How do you ensure high availability and fault tolerance in critical systems?",
   "Can you explain the concept of SLOs, SLIs, and SLAs and how you use them?",
   "What strategies do you use to scale systems to handle increased demand?"]

def generate_penetration_tester_questions : List String :=
  ["What tools and techniques do you use to identify and exploit vulnerabilities in systems?",
   "Describe your process for performing a penetration test from start to finish.",
   "How do you report and communicate findings to stakeholders effectively?",
   "What strategies do you use to stay updated with the latest exploits and attack methods?",
   "Explain a challenging penetration test you conducted and the outcomes.",
   "How do you ensure compliance with ethical hacking and legal regulations?"]

def generate_data_analyst_questions : List String :=
  ["What tools and platforms do you use for data analysis (e.g., Excel, Python, Tableau)?",
   "Describe your experience with cleaning and preprocessing large datasets.",
   "How do you communicate your findings effectively to non-technical stakeholders?",
   "What techniques do you use for identifying trends and patterns in data?",
   "Explain a data analysis project where your insights had a significant impact.",
   "How do you ensure data accuracy and reliability in your reports?"]

def generate_blockchain_developer_questions : List String :=
  ["What blockchain platforms are you proficient in (e.g., Ethereum, Hyperledger)?",
   "Describe your experience with developing smart contracts using Solidity or other languages.",
   "How do you ensure the security of blockchain applications against potential vulnerabilities?",
   "What tools do you use for testing and debugging blockchain-based solutions?",
   "Explain a blockchain project you worked on and the challenges you faced.",
   "How do you optimize the performance of blockchain networks and applications?"]

def generate_it_compliance_specialist_questions : List String :=
  ["What frameworks or standards do you use to ensure IT compliance (e.g., GDPR, ISO 27001)?",
   "Describe your process for conducting IT compliance audits.",
   "How do you stay updated with changes in compliance regulations?",
   "What strategies do you use to train employees on IT compliance requirements?",
   "Explain a time when you identified and resolved a compliance issue.",
   "How do you collaborate with other departments to maintain IT compliance?"]

def generate_software_development_manager_questions : List String :=
  ["How do you manage and prioritize tasks for development teams?",
   "Describe your approach to ensuring the quality and scalability of software projects.",
   "How do you handle conflicts or challenges within your development team?",
   "What strategies do you use to ensure on-time delivery of software projects?",
   "Explain a time when you implemented a new process to improve development efficiency.",
   "How do you balance technical leadership with project management responsibilities?"]

def generate_virtual_reality_developer_questions : List String :=
  ["What tools and frameworks do you use for VR development (e.g., Unity, Unreal Engine)?",
   "Describe your experience with designing immersive VR environments.",
   "How do you optimize VR applications for performance and user experience?",
   "What strategies do you use to integrate VR with other technologies (e.g., AR, AI)?",
   "Explain a VR project you worked on and the challenges you faced.",
   "How do you ensure accessibility and usability in VR applications?"]

def generate_infrastructure_engineer_questions : List String :=
  ["What is your experience in designing and implementing IT infrastructure?",
   "How do you handle network bottlenecks and improve infrastructure performance?",
   "Describe a project where you successfully migrated infrastructure to the cloud.",
   "What tools do you use for infrastructure monitoring and management?",
   "How do you ensure security and compliance in IT infrastructure?",
   "Can you explain the process of capacity planning and resource allocation?"]

def generate_it_operations_analyst_questions : List String :=
  ["How do you ensure smooth day-to-day IT operations?",
   "What tools do you use to monitor IT systems and prevent downtime?",
   "Describe your experience with ITIL or other service management frameworks.",
   "How do you handle escalations and prioritize incident response?",
   "What methods do you use to optimize IT operations and improve efficiency?",
   "Can you share an example where you implemented automation in IT operations?"]

def generate_digital_marketing_specialist_questions : List String :=
  ["What is your experience with SEO and PPC campaigns?",
   "How do you analyze and improve the performance of digital marketing strategies?",
   "Which tools do you prefer for social media marketing and why?",
   "How do you measure ROI for digital marketing campaigns?",
   "Can you explain your approach to content marketing and brand awareness?",
   "Describe a successful campaign you managed and the results you achieved."]

def generate_network_architect_questions : List String :=
  ["How do you design scalable and secure network architectures?",
   "What experience do you have with SDN (Software-Defined Networking)?",
   "Can you describe a time you optimized a network for performance and reliability?",
   "What tools and protocols do you use to monitor network traffic?",
   "How do you ensure network security against evolving threats?",
   "What is your process for evaluating and implementing new networking technologies?"]

def generate_help_desk_technician_questions : List String :=
  ["How do you handle troubleshooting technical issues for end-users?",
   "Describe a situation where you resolved a high-priority IT issue.",
   "What is your experience with ticketing systems like Jira or ServiceNow?",
   "How do you communicate technical solutions to non-technical users?",
   "What steps do you take to document recurring issues and their solutions?",
   "How do you stay updated with the latest IT support tools and techniques?"]

def generate_configuration_manager_questions : List String :=
  ["How do you manage and maintain configuration baselines in IT systems?",
   "Describe your experience with version control systems like Git.",
   "What tools do you use for configuration management and automation?",
   "How do you ensure compliance with configuration standards and policies?",
   "Can you explain the importance of change management in configuration?",
   "Describe a scenario where you resolved a critical configuration issue."]

def generate_systems_analyst_questions : List String :=
  ["How do you gather and analyze business requirements for system design?",
   "What tools and techniques do you use for process modeling and analysis?",
   "Describe your experience with systems integration and testing.",
   "How do you ensure the scalability and efficiency of system solutions?",
   "What methods do you use to stay updated on emerging technologies?",
   "Can you provide an example of a successful system implementation project?"]

def generate_database_developer_questions : List String :=
  ["What is your experience in designing and optimizing database schemas?",
   "How do you ensure database performance and scalability?",
   "Describe your experience with stored procedures, triggers, and indexing.",
   "What tools do you use for database development and management?",
   "How do you handle database migrations and data integrity issues?",
   "Can you explain your approach to ensuring database security?"]

def generate_it_business_partner_questions : List String :=
  ["How do you align IT strategies with business goals?",
   "Describe your experience collaborating with stakeholders to define IT priorities.",
   "What methods do you use to measure the ROI of IT initiatives?",
   "How do you identify opportunities for digital transformation in a business?",
   "What is your approach to managing IT budgets and resources?",
   "Can you share an example where you improved business outcomes through IT?"]

def generate_cloud_consultant_questions : List String :=
  ["What is your experience with cloud platforms like AWS, Azure, or GCP?",
   "How do you design cloud architectures to meet business requirements?",
   "Describe a successful cloud migration project you led or participated in.",
   "What tools and practices do you use for cloud cost optimization?",
   "How do you ensure security and compliance in cloud environments?",
   "Can you explain the advantages of serverless computing in the cloud?"]

def generate_virtualization_engineer_questions : List String :=
  ["What is your experience with virtualization platforms like VMware or Hyper-V?",
   "How do you optimize virtualized environments for performance and efficiency?",
   "Describe your experience with virtual machine migrations and backups.",
   "What tools do you use for monitoring and managing virtualized systems?",
   "How do you ensure security in a virtualized infrastructure?",
   "Can you explain the benefits of containerization over traditional virtualization?"]

def generate_e_commerce_specialist_questions : List String :=
  ["What is your experience with e-commerce platforms like Shopify or Magento?",
   "How do you optimize the user experience for e-commerce websites?",
   "Describe a successful strategy you used to increase online sales.",
   "What tools do you use for tracking and analyzing e-commerce metrics?",
   "How do you ensure security and compliance for online transactions?",
   "Can you share your approach to managing product catalogs and inventory online?"]

def generate_it_trainer_questions : List String :=
  ["What is your experience in developing and delivering IT training programs?",
   "How do you assess the effectiveness of your training sessions?",
   "Describe a time you trained a team on a new technology or tool.",
   "What methods do you use to engage learners during IT training?",
   "How do you customize training materials for different skill levels?",
   "What tools and platforms do you use for online IT training?"]

def generate_technical_project_manager_questions : List String :=
  ["What is your experience in managing technical projects from start to finish?",
   "How do you ensure projects stay on time and within budget?",
   "Describe your approach to risk management in technical projects.",
   "What tools do you use for project planning and tracking progress?",
   "How do you handle changes in project scope or requirements?",
   "Can you share an example of a challenging project you successfully delivered?"]

def generate_mobile_ux_designer_questions : List String :=
  ["What is your process for designing user-friendly mobile interfaces?",
   "How do you conduct usability testing for mobile applications?",
   "Describe your experience with wireframing and prototyping tools.",
   "What are the key considerations for designing cross-platform mobile apps?",
   "How do you stay updated with trends in mobile UX design?",
   "Can you share an example of a successful mobile UX design project you worked on?"]

def generate_noc_technician_questions : List String :=
  ["How do you monitor and troubleshoot network issues in real-time?",
   "What tools do you use for network performance monitoring?",
   "Describe your experience with handling network outages and escalations.",
   "How do you prioritize incidents in a high-pressure environment?",
   "What protocols and standards do you follow for network maintenance?",
   "Can you explain your process for documenting recurring network problems?"]

def generate_release_manager_questions : List String :=
  ["What is your approach to coordinating software releases across teams?",
   "How do you ensure a smooth deployment process with minimal downtime?",
   "Describe your experience with version control and CI/CD tools.",
   "How do you manage and mitigate risks during a release?",
   "What is your process for tracking post-release issues and feedback?",
   "Can you provide an example of a challenging release you successfully managed?"]

def generate_it_change_manager_questions : List String :=
  ["What is your process for managing IT changes in an organization?",
   "How do you communicate and coordinate with stakeholders during changes?",
   "Describe your experience with change management frameworks like ITIL.",
   "How do you assess the risks and impact of proposed changes?",
   "What tools do you use to track and document IT change requests?",
   "Can you share an example of a successful IT change implementation?"]

def generate_data_governance_analyst_questions : List String :=
  ["What is your experience with establishing data governance policies?",
   "How do you ensure data compliance with regulations like GDPR or CCPA?",
   "Describe your process for managing data quality and integrity.",
   "What tools do you use for data lineage and cataloging?",
   "How do you collaborate with stakeholders to enforce data governance?",
   "Can you provide an example of improving data governance in a previous role?"]

def generate_performance_engineer_questions : List String :=
  ["What tools do you use to identify and resolve system performance issues?",
   "Describe your experience with load testing and performance benchmarking.",
   "How do you optimize application performance under heavy loads?",
   "What metrics do you prioritize when evaluating system performance?",
   "How do you troubleshoot and address performance bottlenecks?",
   "Can you share an example of a successful performance optimization project?"]

def generate_bi_analyst_questions : List String :=
  ["What is your experience with BI tools like Tableau or Power BI?",
   "How do you design and build interactive dashboards for stakeholders?",
   "Describe your process for gathering and analyzing business requirements.",
   "What methods do you use to validate data accuracy and insights?",
   "How do you ensure BI solutions align with business goals?",
   "Can you provide an example of using BI to drive business decisions?"]

def generate_sap_consultant_questions : List String :=
  ["What modules of SAP are you most experienced with?",
   "How do you gather requirements and customize SAP solutions for clients?",
   "Describe a successful SAP implementation project you worked on.",
   "What is your approach to troubleshooting SAP system issues?",
   "How do you ensure data migration and integration with SAP systems?",
   "Can you share your experience with SAP S/4HANA and its benefits?"]

def generate_digital_transformation_consultant_questions : List String :=
  ["What is your approach to identifying areas for digital transformation?",
   "Describe your experience with implementing new technologies in organizations.",
   "How do you measure the success of digital transformation initiatives?",
   "What methods do you use to manage resistance to change during transformations?",
   "How do you ensure alignment between digital strategies and business goals?",
   "Can you provide an example of a successful digital transformation project?"]

def generate_it_asset_manager_questions : List String :=
  ["What is your process for tracking and managing IT assets?",
   "How do you ensure compliance with software licenses and regulations?",
   "Describe your experience with IT asset management tools.",
   "What methods do you use to optimize the lifecycle of IT assets?",
   "How do you handle asset disposals and data security during decommissioning?",
   "Can you share an example of improving efficiency through IT asset management?"]

def generate_game_designer_questions : List String :=
  ["What is your process for creating engaging gameplay mechanics?",
   "How do you balance storytelling, design, and user experience in games?",
   "Describe your experience with game engines like Unity or Unreal Engine.",
   "What methods do you use to prototype and test game concepts?",
   "How do you collaborate with developers and artists during game production?",
   "Can you share an example of a successful game design project you worked on?"]

def generate_social_media_analyst_questions : List String :=
  ["What tools do you use to monitor and analyze social media performance?",
   "How do you measure the success of social media campaigns?",
   "Describe your approach to audience segmentation and targeting.",
   "How do you use social media analytics to drive engagement strategies?",
   "What methods do you use to track brand sentiment and competitor analysis?",
   "Can you share an example of improving ROI through social media insights?"]

def questions : List (String × List String) :=
  [("Software Engineer", generate_software_engineer_questions),
  ("Data Scientist", generate_data_scientist_questions),
  ("Cloud Engineer", generate_cloud_engineer_questions),
  ("Full Stack Developer", generate_full_stack_developer_questions),
  ("DevOps Engineer", generate_devops_engineer_questions),
  ("Front End Developer", generate_front_end_developer_questions),
  ("Back End Developer", generate_back_end_developer_questions),
  ("Mobile Application Developer", generate_mobile_application_developer_questions),
  ("Cybersecurity Analyst", generate_cybersecurity_analyst_questions),
  ("Database Administrator", generate_database_administrator_questions),
  ("System Administrator", generate_system_administrator_questions),
  ("Network Engineer", generate_network_engineer_questions),
  ("IT Support Specialist", generate_it_support_specialist_questions),
  ("Web Developer", generate_web_developer_questions),
  ("Product Manager", generate_product_manager_questions),
  ("Machine Learning Engineer", generate_machine_learning_engineer_questions),
  ("IT Project Manager", generate_it_project_manager_questions),
  ("Business Analyst", generate_business_analyst_questions),
  ("Technical Support Engineer", generate_technical_support_engineer_questions),
  ("Quality Assurance Engineer", generate_quality_assurance_engineer_questions),
  ("Data Engineer", generate_data_engineer_questions),
  ("Artificial Intelligence Engineer", generate_ai_engineer_questions),
  ("UI/UX Designer", generate_ux_ui_designer_questions),
  ("IT Consultant", generate_it_consultant_questions),
  ("Solutions Architect", generate_solutions_architect_questions),
  ("IT Operations Manager", generate_it_operations_manager_questions),
  ("Chief Technology Officer", generate_cto_questions),
  ("Security Engineer", generate_security_engineer_questions),
  ("IT Auditor", generate_it_auditor_questions),
  ("Software Architect", generate_software_architect_questions),
  ("Scrum Master", generate_scrum_master_questions),
  ("Technical Writer", generate_technical_writer_questions),
  ("Network Security Analyst", generate_network_security_analyst_questions),
  ("Game Developer", generate_game_developer_questions),
  ("Embedded Systems Engineer", generate_embedded_systems_engineer_questions),
  ("ERP Consultant", generate_erp_consultant_questions),
  ("Salesforce Developer", generate_salesforce_developer_questions),
  ("Big Data Engineer", generate_big_data_engineer_questions),
  ("BI Developer", generate_bi_developer_questions),
  ("Information Security Analyst", generate_information_security_analyst_questions),
  ("Robotics Engineer", generate_robotics_engineer_questions),
  ("Cloud Solutions Architect", generate_cloud_solutions_architect_questions),
  ("Computer Vision Engineer", generate_computer_vision_engineer_questions),
  ("Site Reliability Engineer", generate_site_reliability_engineer_questions),
  ("Penetration Tester", generate_penetration_tester_questions),
  ("Data Analyst", generate_data_analyst_questions),
  ("Blockchain Developer", generate_blockchain_developer_questions),
  ("IT Compliance Specialist", generate_it_compliance_specialist_questions),
  ("Software Development Manager", generate_software_development_manager_questions),
  ("Virtual Reality Developer", generate_virtual_reality_developer_questions),
  ("Infrastructure Engineer", generate_infrastructure_engineer_questions),
  ("IT Operations Analyst", generate_it_operations_analyst_questions),
  ("Digital Marketing Specialist", generate_digital_marketing_specialist_questions),
  ("Network Architect", generate_network_architect_questions),
  ("Help Desk Technician", generate_help_desk_technician_questions),
  ("Configuration Manager", generate_configuration_manager_questions),
  ("Systems Analyst", generate_systems_analyst_questions),
  ("Database Developer", generate_database_developer_questions),
  ("IT Business Partner", generate_it_business_partner_questions),
  ("Cloud Consultant", generate_cloud_consultant_questions),
  ("Virtualization Engineer", generate_virtualization_engineer_questions),
  ("E-commerce Specialist", generate_e_commerce_specialist_questions),
  ("IT Trainer", generate_it_trainer_questions),
  ("Technical Project Manager", generate_technical_project_manager_questions),
  ("Mobile UX Designer", generate_mobile_ux_designer_questions),
  ("Network Operations Center (NOC) Technician", generate_noc_technician_questions),
  ("Release Manager", generate_release_manager_questions),
  ("IT Change Manager", generate_it_change_manager_questions),
  ("Data Governance Analyst", generate_data_governance_analyst_questions),
  ("Performance Engineer", generate_performance_engineer_questions),
  ("BI Analyst", generate_bi_analyst_questions),
  ("SAP Consultant", generate_sap_consultant_questions),
  ("Digital Transformation Consultant", generate_digital_transformation_consultant_questions),
  ("IT Asset Manager", generate_it_asset_manager_questions),
  ("Game Designer", generate_game_designer_questions),
  ("Social Media Analyst", generate_social_media_analyst_questions)]

def job_titles : List String :=
  ["Software Engineer",
   "Data Scientist",
   "Cloud Engineer",
   "Full Stack Developer",
   "DevOps Engineer",
   "Front End Developer",
   "Back End Developer",
   "Mobile Application Developer",
   "Cybersecurity Analyst",
   "Database Administrator",
   "System Administrator",
   "Network Engineer",
   "IT Support Specialist",
   "Web Developer",
   "Product Manager",
   "Machine Learning Engineer",
   "IT Project Manager",
   "Business Analyst",
   "Technical Support Engineer",
   "Quality Assurance Engineer",
   "Data Engineer",
   "Artificial Intelligence Engineer",
   "UX/UI Designer",
   "IT Consultant",
   "Solutions Architect",
   "IT Operations Manager",
   "Chief Technology Officer (CTO)",
   "Security Engineer",
   "IT Auditor",
   "Software Architect",
   "Scrum Master",
   "Technical Writer",
   "Network Security Analyst",
   "Game Developer",
   "Embedded Systems Engineer",
   "ERP Consultant",
   "Salesforce Developer",
   "Big Data Engineer",
   "BI Developer",
   "Information Security Analyst",
   "Robotics Engineer",
   "Cloud Solutions Architect",
   "Computer Vision Engineer",
   "Site Reliability Engineer",
   "Penetration Tester",
   "Data Analyst",
   "Blockchain Developer",
   "IT Compliance Specialist",
   "Software Development Manager",
   "Virtual Reality Developer",
   "Infrastructure Engineer",
   "IT Operations Analyst",
   "Digital Marketing Specialist",
   "Network Architect",
   "Help Desk Technician",
   "Configuration Manager",
   "Systems Analyst",
   "Database Developer",
   "IT Business Partner",
   "Cloud Consultant",
   "Virtualization Engineer",
   "E-commerce Specialist",
   "IT Trainer",
   "Technical Project Manager",
   "Mobile UX Designer",
   "Network Operations Center (NOC) Technician",
   "Release Manager",
   "IT Change Manager",
   "Data Governance Analyst",
   "Performance Engineer",
   "BI Analyst",
   "SAP Consultant",
   "Digital Transformation Consultant",
   "IT Asset Manager",
   "Game Designer",
   "Social Media Analyst"]

/-- The generic fallback questions returned when the (stripped) title is not
a dictionary key (rag_model.py lines 1099-1104); each f-string interpolates
the unrecognized title. -/
def fallback_questions (job_title : String) : List String :=
  ["What relevant experience do you have for the role of " ++ job_title ++ "?",
   "What technologies have you worked with that are essential for " ++ job_title ++ "?",
   "Describe a challenge you faced in a similar role to " ++ job_title ++
     " and how you resolved it.",
   "How would you approach a project in the position of " ++ job_title ++ "?"]

/-- Embedding of `generate_questions_for_job` (rag_model.py
lines 1010-1104): strip the title, look it up in the dictionary (exact,
case-sensitive string match), and fall back to the generic questions on a
miss. -/
def generate_questions_for_job (job_title : String) : List String :=
  let t := pyStrip job_title
  match questions.find? (fun p => p.1 == t) with
  | some p => p.2
  | none => fallback_questions t

/-! The TF-IDF cosine similarity computed inside the `try` block is the work
of the external `sklearn` library (`TfidfVectorizer(stop_words='english')`
fitted on `[resume_text] + job_descriptions`, then
`cosine_similarity(tfidf_matrix[0:1], tfidf_matrix[1:])`).  That library code
is not part of this repository, so it is modelled from the specification
(§4.3 steps 2-3).  Documents are represented as token lists (the tokens left
after the vectorizer's tokenization and stop-word removal); two equal
document strings tokenize to equal token lists. -/

/-- Modelled from the spec: the term frequency of token `t` in document `d`
(spec §4.3 step 2, "term-frequency/inverse-document-frequency vector
space"). -/
def tf (d : List String) (t : String) : ℕ := d.count t

/-- Modelled from the spec: the smoothed inverse document frequency of token
`t` over the fitted document set: `ln((1 + n) / (1 + df)) + 1`, the weighting
of the vectorizer the spec names.  It is nonnegative since `df ≤ n`. -/
noncomputable def idf (docs : List (List String)) (t : String) : ℝ :=
  Real.log ((1 + docs.length) / (1 + (docs.filter (fun d => d.contains t)).length)) + 1

/-- Modelled from the spec: the TF-IDF weight of token `t` in document `d`,
for a vector space fitted on `docs`. -/
noncomputable def tfidf (docs : List (List String)) (d : List String) (t : String) : ℝ :=
  (tf d t : ℝ) * idf docs t

/-- Modelled from the spec: the vocabulary of the fitted document set
(spec §4.3 step 2, "vocabulary is the union of terms appearing in any
document"). -/
def vocabOf (docs : List (List String)) : Finset String := docs.flatten.toFinset

/-- Modelled from the spec: cosine similarity of two term vectors over a
vocabulary (spec §4.3 step 3).  Division by zero yields 0 in Lean, matching
the library's convention that a zero vector has similarity 0. -/
noncomputable def cosineSim (vocab : Finset String) (u v : String → ℝ) : ℝ :=
  (∑ t ∈ vocab, u t * v t) /
    (Real.sqrt (∑ t ∈ vocab, u t ^ 2) * Real.sqrt (∑ t ∈ vocab, v t ^ 2))

/-- Modelled from the spec: the similarity the matcher computes between the
resume and the `j`-th job description — the vector space is fitted jointly
on `[resume_text] + job_descriptions` and similarity is cosine between the
resume vector and that job's vector (spec §4.3 steps 2-3). -/
noncomputable def matcherSimilarity (resume : List String)
    (descs : List (List String)) (j : ℕ) : ℝ :=
  cosineSim (vocabOf (resume :: descs))
    (tfidf (resume :: descs) resume)
    (tfidf (resume :: descs) (descs.getD j []))

/-! ### Helper lemmas -/

/-- Whether the (stripped) title is a key of the question dictionary. -/
def knownTitle (t : String) : Bool :=
  (questions.find? (fun p => p.1 == t)).isSome

theorem dropWhile_head_fails {α : Type} {p : α → Bool} {l : List α}
    (h : ∀ x ∈ l.head?, p x = false) : l.dropWhile p = l := by
  cases l with
  | nil => rfl
  | cons a as =>
    have ha : p a = false := h a (by simp)
    simp [List.dropWhile_cons, ha]

theorem head?_dropWhile_fails {α : Type} (p : α → Bool) (l : List α) :
    ∀ x ∈ (l.dropWhile p).head?, p x = false := by
  intro x hx
  have h := List.head?_dropWhile_not p l
  rw [Option.mem_def] at hx
  rw [hx] at h
  exact h

theorem dropWhile_idem {α : Type} (p : α → Bool) (l : List α) :
    (l.dropWhile p).dropWhile p = l.dropWhile p :=
  dropWhile_head_fails (head?_dropWhile_fails p l)

theorem getLast?_dropWhile {α : Type} (p : α → Bool) (l : List α)
    (h : l.dropWhile p ≠ []) : (l.dropWhile p).getLast? = l.getLast? := by
  obtain ⟨t, ht⟩ := List.dropWhile_suffix (l := l) p
  conv_rhs => rw [← ht]
  rw [List.getLast?_append]
  cases hd : (l.dropWhile p).getLast? with
  | none => exact absurd (List.getLast?_eq_none_iff.mp hd) h
  | some x => simp

theorem stripList_idem (l : List Char) :
    stripList (stripList l) = stripList l := by
  have h1 : (stripList l).dropWhile Char.isWhitespace = stripList l := by
    apply dropWhile_head_fails
    intro x hx
    unfold stripList at hx
    rw [List.head?_reverse] at hx
    cases hne : (l.dropWhile Char.isWhitespace).reverse.dropWhile Char.isWhitespace with
    | nil => rw [hne] at hx; simp at hx
    | cons b bs =>
      rw [getLast?_dropWhile _ _ (by rw [hne]; simp)] at hx
      rw [List.getLast?_reverse] at hx
      exact head?_dropWhile_fails _ _ x hx
  show (((stripList l).dropWhile Char.isWhitespace).reverse.dropWhile
      Char.isWhitespace).reverse = stripList l
  rw [h1]
  show ((((l.dropWhile Char.isWhitespace).reverse.dropWhile
      Char.isWhitespace).reverse).reverse.dropWhile Char.isWhitespace).reverse = _
  rw [List.reverse_reverse, dropWhile_idem]
  rfl

theorem pyStrip_idem (s : String) : pyStrip (pyStrip s) = pyStrip s :=
  congrArg String.mk (stripList_idem s.data)

/-- Every list in the question dictionary has exactly 6 entries. -/
theorem questions_values_length : ∀ p ∈ questions, (Prod.snd p).length = 6 := by decide

/-! ### Claim theorems -/

/-- C1 (counterexample): `provide_feedback []` does NOT return the
"needs improvement" message: the first guard `score >= len(answers) * 0.8`
is `0 >= 0` for the empty list, so the "Excellent" message is returned. -/
theorem C1_counterexample :
    provide_feedback [] = (0, excellentMsg) ∧
    (provide_feedback []).2 ≠ needsMsg := by
  constructor
  · rfl
  · decide

/-- C1 (amended): `provide_feedback []` returns score 0 paired with the
"Excellent" message, and (being a total function whose guards are mere
comparisons, not divisions) cannot fail: no division by zero occurs. -/
theorem C1_empty_feedback : provide_feedback [] = (0, excellentMsg) := rfl

/-- C3: for an empty corpus the matcher returns exactly the one sentinel
entry, whatever the vectorizer would have done, and (being total) never
raises. -/
theorem C3_empty_corpus_sentinel (jobTitles : List String)
    (vectorize : Except String (List ℚ)) :
    process_resume_and_match_jobs jobTitles [] vectorize =
      [MatchEntry.message "No job descriptions available in ChromaDB."] ∧
    (process_resume_and_match_jobs jobTitles [] vectorize).length = 1 :=
  ⟨rfl, rfl⟩

/-- C4: for a non-empty corpus, a vectorization failure (a `ValueError`
with message `e`) is absorbed: the matcher returns exactly one descriptive
error entry and, being total, never propagates the exception. -/
theorem C4_vectorization_failure_absorbed (jobTitles jobDescriptions : List String)
    (e : String) (h : jobDescriptions ≠ []) :
    process_resume_and_match_jobs jobTitles jobDescriptions (Except.error e) =
      [MatchEntry.message ("Error in processing job matching: " ++ e)] ∧
    (process_resume_and_match_jobs jobTitles jobDescriptions
        (Except.error e)).length = 1 := by
  have hne : jobDescriptions.isEmpty = false := by
    cases jobDescriptions with
    | nil => exact absurd rfl h
    | cons a l => rfl
  constructor <;> simp [process_resume_and_match_jobs, hne]

theorem C4_witness :
    (["descr"] : List String) ≠ [] ∧
    (process_resume_and_match_jobs ["title"] ["descr"]
        (Except.error "empty vocabulary; perhaps the documents only contain stop words") =
      [MatchEntry.message ("Error in processing job matching: " ++
        "empty vocabulary; perhaps the documents only contain stop words")] ∧
    (process_resume_and_match_jobs ["title"] ["descr"]
        (Except.error "empty vocabulary; perhaps the documents only contain stop words")).length
      = 1) :=
  ⟨by decide, C4_vectorization_failure_absorbed ["title"] ["descr"]
    "empty vocabulary; perhaps the documents only contain stop words" (by decide)⟩

/-- C10: the score is at most the number of answers, and the feedback string
is always one of the three fixed messages. -/
theorem C10_feedback_invariants (answers : List String) :
    (provide_feedback answers).1 ≤ answers.length ∧
    ((provide_feedback answers).2 = excellentMsg ∨
     (provide_feedback answers).2 = goodMsg ∨
     (provide_feedback answers).2 = needsMsg) := by
  constructor
  · exact List.length_filter_le _ _
  · simp only [provide_feedback]
    split_ifs <;> simp

/-- C7: `generate_questions_for_job` is total: for every input string
(including the empty string and whitespace-padded strings) it returns a
non-empty list — the 6 role questions when the stripped input is a known
dictionary key, and the 4 generic questions, each interpolating the
(stripped) title, otherwise. -/
theorem C7_questions_total (s : String) :
    generate_questions_for_job s ≠ [] ∧
    (knownTitle (pyStrip s) = true → (generate_questions_for_job s).length = 6) ∧
    (knownTitle (pyStrip s) = false →
      generate_questions_for_job s = fallback_questions (pyStrip s) ∧
      (generate_questions_for_job s).length = 4 ∧
      ∀ q ∈ generate_questions_for_job s, ∃ a b, q = a ++ pyStrip s ++ b) := by
  cases hf : questions.find? (fun p => p.1 == pyStrip s) with
  | none =>
    simp only [generate_questions_for_job, knownTitle, hf, Option.isSome_none]
    refine ⟨?_, ?_, ?_⟩
    · simp [fallback_questions]
    · intro hk
      simp at hk
    · intro _
      refine ⟨trivial, rfl, ?_⟩
      intro q hq
      simp only [fallback_questions, List.mem_cons, List.not_mem_nil, or_false] at hq
      rcases hq with rfl | rfl | rfl | rfl
      · exact ⟨"What relevant experience do you have for the role of ", "?", rfl⟩
      · exact ⟨"What technologies have you worked with that are essential for ", "?", rfl⟩
      · exact ⟨"Describe a challenge you faced in a similar role to ",
          " and how you resolved it.", rfl⟩
      · exact ⟨"How would you approach a project in the position of ", "?", rfl⟩
  | some p =>
    have hp6 : p.2.length = 6 :=
      questions_values_length p (List.mem_of_find?_eq_some hf)
    simp only [generate_questions_for_job, knownTitle, hf, Option.isSome_some]
    refine ⟨?_, fun _ => hp6, ?_⟩
    · intro h0
      rw [h0] at hp6
      simp at hp6
    · intro hk
      simp at hk

theorem C7_witness :
    knownTitle (pyStrip "Software Engineer") = true ∧
    (generate_questions_for_job "Software Engineer").length = 6 :=
  ⟨by decide, (C7_questions_total "Software Engineer").2.1 (by decide)⟩

/-- C8: `generate_questions_for_job` is invariant under stripping its input
(a consequence of `strip` being idempotent); in particular the padded
"  Software Engineer  " gets the same questions as "Software Engineer", and
the dictionary match is exact and case-sensitive: the lowercase variant
falls through to the 4 generic questions while the exact title gets its 6. -/
theorem C8_strip_invariance :
    (∀ s : String, generate_questions_for_job s =
      generate_questions_for_job (pyStrip s)) ∧
    generate_questions_for_job "  Software Engineer  " =
      generate_questions_for_job "Software Engineer" ∧
    (generate_questions_for_job "Software Engineer").length = 6 ∧
    (generate_questions_for_job "software engineer").length = 4 := by
  have expand : ∀ t : String, generate_questions_for_job t =
      (match questions.find? (fun p => p.1 == pyStrip t) with
       | some p => p.2
       | none => fallback_questions (pyStrip t)) := fun _ => rfl
  have key : ∀ s : String, generate_questions_for_job s =
      generate_questions_for_job (pyStrip s) := by
    intro s
    rw [expand s, expand (pyStrip s), pyStrip_idem]
  exact ⟨key, by decide, by decide, by decide⟩

/-- C9: the advertised `job_titles` list and the question dictionary
disagree on two entries: "UX/UI Designer" and
"Chief Technology Officer (CTO)" are advertised titles but not dictionary
keys (which instead hold "UI/UX Designer" and "Chief Technology Officer"),
so both advertised titles get the 4 generic fallback questions. -/
theorem C9_advertised_titles_fall_back :
    "UX/UI Designer" ∈ job_titles ∧
    "Chief Technology Officer (CTO)" ∈ job_titles ∧
    knownTitle "UX/UI Designer" = false ∧
    knownTitle "Chief Technology Officer (CTO)" = false ∧
    knownTitle "UI/UX Designer" = true ∧
    knownTitle "Chief Technology Officer" = true ∧
    generate_questions_for_job "UX/UI Designer" =
      fallback_questions "UX/UI Designer" ∧
    generate_questions_for_job "Chief Technology Officer (CTO)" =
      fallback_questions "Chief Technology Officer (CTO)" ∧
    (generate_questions_for_job "UX/UI Designer").length = 4 ∧
    (generate_questions_for_job "Chief Technology Officer (CTO)").length = 4 := by
  refine ⟨?_, ?_, ?_, ?_, ?_, ?_, ?_, ?_, ?_, ?_⟩ <;> decide

/-- C6: for non-empty `answers`, the score is the number of answers whose
stripped length exceeds 20 characters, and the message is selected by the
ratio score / len(answers) with thresholds 0.8 and 0.5; the two concrete
examples from the spec are included. -/
theorem C6_feedback_score_and_tier (answers : List String) (h : answers ≠ []) :
    (provide_feedback answers).1 = substantiveCount answers ∧
    (provide_feedback answers).2 =
      (if (4 : ℚ)/5 ≤ (substantiveCount answers : ℚ) / (answers.length : ℚ) then
        excellentMsg
       else if (1 : ℚ)/2 ≤ (substantiveCount answers : ℚ) / (answers.length : ℚ) then
        goodMsg
       else needsMsg) ∧
    provide_feedback ["aaaaaaaaaaaaaaaaaaaaaaaaa", "aaaaaaaaaaaaaaaaaaaaaaaaa", "short"]
      = (2, goodMsg) ∧
    (provide_feedback ["aaaaaaaaaaaaaaaaaaaaaaaaa", "aaaaaaaaaaaaaaaaaaaaaaaaa",
      "aaaaaaaaaaaaaaaaaaaaaaaaa", "aaaaaaaaaaaaaaaaaaaaaaaaa",
      "aaaaaaaaaaaaaaaaaaaaaaaaa"]).2 = excellentMsg := by
  have hn : 0 < (answers.length : ℚ) := by
    have h0 : 0 < answers.length := List.length_pos.mpr h
    exact_mod_cast h0
  have h1 : (substantiveCount answers * 5 ≥ answers.length * 4) ↔
      ((4 : ℚ)/5 ≤ (substantiveCount answers : ℚ) / (answers.length : ℚ)) := by
    rw [div_le_div_iff₀ (by norm_num) hn, mul_comm (4 : ℚ)]
    exact Iff.symm (by exact_mod_cast Iff.rfl)
  have h2 : (substantiveCount answers * 2 ≥ answers.length) ↔
      ((1 : ℚ)/2 ≤ (substantiveCount answers : ℚ) / (answers.length : ℚ)) := by
    rw [div_le_div_iff₀ (by norm_num) hn, one_mul]
    exact Iff.symm (by exact_mod_cast Iff.rfl)
  refine ⟨rfl, ?_, rfl, rfl⟩
  simp only [provide_feedback]
  split_ifs with ha hb hc hd <;> tauto

theorem C6_witness :
    (["aaaaaaaaaaaaaaaaaaaaaaaaa", "aaaaaaaaaaaaaaaaaaaaaaaaa", "short"] : List String) ≠ [] ∧
    ((provide_feedback ["aaaaaaaaaaaaaaaaaaaaaaaaa", "aaaaaaaaaaaaaaaaaaaaaaaaa", "short"]).1 =
      substantiveCount ["aaaaaaaaaaaaaaaaaaaaaaaaa", "aaaaaaaaaaaaaaaaaaaaaaaaa", "short"] ∧
    (provide_feedback ["aaaaaaaaaaaaaaaaaaaaaaaaa", "aaaaaaaaaaaaaaaaaaaaaaaaa", "short"]).2 =
      (if (4 : ℚ)/5 ≤ (substantiveCount ["aaaaaaaaaaaaaaaaaaaaaaaaa",
          "aaaaaaaaaaaaaaaaaaaaaaaaa", "short"] : ℚ) /
          ((["aaaaaaaaaaaaaaaaaaaaaaaaa", "aaaaaaaaaaaaaaaaaaaaaaaaa",
            "short"] : List String).length : ℚ) then
        excellentMsg
       else if (1 : ℚ)/2 ≤ (substantiveCount ["aaaaaaaaaaaaaaaaaaaaaaaaa",
          "aaaaaaaaaaaaaaaaaaaaaaaaa", "short"] : ℚ) /
          ((["aaaaaaaaaaaaaaaaaaaaaaaaa", "aaaaaaaaaaaaaaaaaaaaaaaaa",
            "short"] : List String).length : ℚ) then
        goodMsg
       else needsMsg) ∧
    provide_feedback ["aaaaaaaaaaaaaaaaaaaaaaaaa", "aaaaaaaaaaaaaaaaaaaaaaaaa", "short"]
      = (2, goodMsg) ∧
    (provide_feedback ["aaaaaaaaaaaaaaaaaaaaaaaaa", "aaaaaaaaaaaaaaaaaaaaaaaaa",
      "aaaaaaaaaaaaaaaaaaaaaaaaa", "aaaaaaaaaaaaaaaaaaaaaaaaa",
      "aaaaaaaaaaaaaaaaaaaaaaaaa"]).2 = excellentMsg) :=
  ⟨by decide, C6_feedback_score_and_tier
    ["aaaaaaaaaaaaaaaaaaaaaaaaa", "aaaaaaaaaaaaaaaaaaaaaaaaa", "short"] (by decide)⟩

/-- C2: for a non-empty corpus on which vectorization succeeds (producing
one cosine similarity per job description), the matcher returns exactly
`min 5 n` entries, all of them job/similarity pairs, ordered by
non-increasing similarity. -/
theorem C2_top5_sorted_desc (jobTitles jobDescriptions : List String)
    (sims : List ℚ) (h1 : jobDescriptions ≠ [])
    (h2 : sims.length = jobDescriptions.length) :
    (process_resume_and_match_jobs jobTitles jobDescriptions
        (Except.ok sims)).length = min 5 jobDescriptions.length ∧
    List.Pairwise (fun a b => entrySim b ≤ entrySim a)
      (process_resume_and_match_jobs jobTitles jobDescriptions (Except.ok sims)) ∧
    ∀ e ∈ process_resume_and_match_jobs jobTitles jobDescriptions (Except.ok sims),
      isJobEntry e = true := by
  have hne : jobDescriptions.isEmpty = false := by
    cases jobDescriptions with
    | nil => exact absurd rfl h1
    | cons a l => rfl
  have hproc : process_resume_and_match_jobs jobTitles jobDescriptions
      (Except.ok sims) = (topIndices sims).map (fun i =>
        MatchEntry.job (jobTitles.getD i "") (sims.getD i 0)) := by
    simp [process_resume_and_match_jobs, hne]
  have hlen_as : (argsortAsc sims).length = sims.length := by
    unfold argsortAsc
    rw [List.length_insertionSort, List.length_range]
  have hsorted : List.Pairwise (fun i j => sims.getD i 0 ≤ sims.getD j 0)
      (argsortAsc sims) := by
    haveI : IsTotal ℕ (fun i j => sims.getD i 0 ≤ sims.getD j 0) :=
      ⟨fun a b => le_total _ _⟩
    haveI : IsTrans ℕ (fun i j => sims.getD i 0 ≤ sims.getD j 0) :=
      ⟨fun a b c hab hbc => le_trans hab hbc⟩
    exact List.sorted_insertionSort _ _
  refine ⟨?_, ?_, ?_⟩
  · rw [hproc, List.length_map]
    unfold topIndices
    rw [List.length_reverse, List.length_drop, hlen_as, h2]
    omega
  · rw [hproc, List.pairwise_map]
    unfold topIndices
    rw [List.pairwise_reverse]
    have hdropped : List.Pairwise (fun i j => sims.getD i 0 ≤ sims.getD j 0)
        ((argsortAsc sims).drop (sims.length - 5)) :=
      List.Pairwise.sublist (List.drop_sublist _ _) hsorted
    exact hdropped.imp (fun hab => by simpa [entrySim] using hab)
  · rw [hproc]
    intro e he
    rcases List.mem_map.mp he with ⟨i, _, rfl⟩
    rfl

theorem C2_witness :
    (["d1", "d2"] : List String) ≠ [] ∧
    ([(3 : ℚ), 7].length = (["d1", "d2"] : List String).length) ∧
    ((process_resume_and_match_jobs ["t1", "t2"] ["d1", "d2"]
        (Except.ok [3, 7])).length = min 5 (["d1", "d2"] : List String).length ∧
    List.Pairwise (fun a b => entrySim b ≤ entrySim a)
      (process_resume_and_match_jobs ["t1", "t2"] ["d1", "d2"] (Except.ok [3, 7])) ∧
    ∀ e ∈ process_resume_and_match_jobs ["t1", "t2"] ["d1", "d2"] (Except.ok [3, 7]),
      isJobEntry e = true) :=
  ⟨by decide, rfl,
    C2_top5_sorted_desc ["t1", "t2"] ["d1", "d2"] [3, 7] (by decide) rfl⟩

/-- The smoothed idf weight is nonnegative (indeed at least 1), since the
document frequency of a token never exceeds the number of documents. -/
theorem idf_nonneg (docs : List (List String)) (t : String) : 0 ≤ idf docs t := by
  unfold idf
  have hdf : ((docs.filter (fun d => d.contains t)).length : ℝ) ≤ docs.length := by
    exact_mod_cast List.length_filter_le _ _
  have h1 : (1 : ℝ) ≤ (1 + docs.length) /
      (1 + (docs.filter (fun d => d.contains t)).length) := by
    rw [le_div_iff₀ (by positivity)]
    linarith
  have := Real.log_nonneg h1
  linarith

/-- TF-IDF weights are nonnegative. -/
theorem tfidf_nonneg (docs : List (List String)) (d : List String) (t : String) :
    0 ≤ tfidf docs d t :=
  mul_nonneg (Nat.cast_nonneg _) (idf_nonneg docs t)

/-- Cosine similarity of a nonnegative vector with itself bounds its cosine
similarity with every other nonnegative vector (Cauchy-Schwarz; the
degenerate all-zero cases give 0 ≤ 0). -/
theorem cosineSim_le_self (vocab : Finset String) (u v : String → ℝ)
    (hu : ∀ t, 0 ≤ u t) (hv : ∀ t, 0 ≤ v t) :
    cosineSim vocab u v ≤ cosineSim vocab u u := by
  unfold cosineSim
  have hself : (∑ t ∈ vocab, u t * u t) = ∑ t ∈ vocab, u t ^ 2 := by
    refine Finset.sum_congr rfl fun t _ => ?_
    ring
  rw [hself]
  have hS0 : 0 ≤ ∑ t ∈ vocab, u t ^ 2 := Finset.sum_nonneg fun t _ => sq_nonneg _
  have hT0 : 0 ≤ ∑ t ∈ vocab, v t ^ 2 := Finset.sum_nonneg fun t _ => sq_nonneg _
  have hD0 : 0 ≤ ∑ t ∈ vocab, u t * v t :=
    Finset.sum_nonneg fun t _ => mul_nonneg (hu t) (hv t)
  rcases eq_or_lt_of_le hS0 with hSeq | hSpos
  · have hu0 : ∀ t ∈ vocab, u t = 0 := by
      intro t ht
      have hz := (Finset.sum_eq_zero_iff_of_nonneg
        (fun t _ => sq_nonneg (u t))).mp hSeq.symm t ht
      exact pow_eq_zero_iff (two_ne_zero) |>.mp hz
    have hDz : (∑ t ∈ vocab, u t * v t) = 0 :=
      Finset.sum_eq_zero fun t ht => by rw [hu0 t ht, zero_mul]
    rw [hDz, ← hSeq]
    simp
  · have hsqS : 0 < Real.sqrt (∑ t ∈ vocab, u t ^ 2) := Real.sqrt_pos.mpr hSpos
    have hRHS : (∑ t ∈ vocab, u t ^ 2) /
        (Real.sqrt (∑ t ∈ vocab, u t ^ 2) * Real.sqrt (∑ t ∈ vocab, u t ^ 2)) = 1 := by
      rw [Real.mul_self_sqrt hS0]
      exact div_self (ne_of_gt hSpos)
    rw [hRHS]
    rcases eq_or_lt_of_le hT0 with hTeq | hTpos
    · have hv0 : ∀ t ∈ vocab, v t = 0 := by
        intro t ht
        have hz := (Finset.sum_eq_zero_iff_of_nonneg
          (fun t _ => sq_nonneg (v t))).mp hTeq.symm t ht
        exact pow_eq_zero_iff (two_ne_zero) |>.mp hz
      have hDz : (∑ t ∈ vocab, u t * v t) = 0 :=
        Finset.sum_eq_zero fun t ht => by rw [hv0 t ht, mul_zero]
      rw [hDz, zero_div]
      exact zero_le_one
    · have hsqT : 0 < Real.sqrt (∑ t ∈ vocab, v t ^ 2) := Real.sqrt_pos.mpr hTpos
      rw [div_le_one (mul_pos hsqS hsqT)]
      calc (∑ t ∈ vocab, u t * v t)
          = Real.sqrt ((∑ t ∈ vocab, u t * v t) ^ 2) := (Real.sqrt_sq hD0).symm
        _ ≤ Real.sqrt ((∑ t ∈ vocab, u t ^ 2) * ∑ t ∈ vocab, v t ^ 2) :=
            Real.sqrt_le_sqrt (Finset.sum_mul_sq_le_sq_mul_sq vocab u v)
        _ = Real.sqrt (∑ t ∈ vocab, u t ^ 2) * Real.sqrt (∑ t ∈ vocab, v t ^ 2) :=
            Real.sqrt_mul hS0 _

/-- C5: when the `i`-th job description is (token-for-token) the resume
itself, the similarity the matcher computes for it is at least the
similarity of every other record. -/
theorem C5_self_description_maximal (resume : List String)
    (descs : List (List String)) (i : ℕ) (_hi : i < descs.length)
    (heq : descs.getD i [] = resume) (j : ℕ) :
    matcherSimilarity resume descs j ≤ matcherSimilarity resume descs i := by
  unfold matcherSimilarity
  rw [heq]
  exact cosineSim_le_self _ _ _ (fun t => tfidf_nonneg _ _ t)
    (fun t => tfidf_nonneg _ _ t)

theorem C5_witness :
    0 < ([["resume"], ["other"]] : List (List String)).length ∧
    ([["resume"], ["other"]] : List (List String)).getD 0 [] = ["resume"] ∧
    matcherSimilarity ["resume"] [["resume"], ["other"]] 1 ≤
      matcherSimilarity ["resume"] [["resume"], ["other"]] 0 :=
  ⟨by decide, by decide,
    C5_self_description_maximal ["resume"] [["resume"], ["other"]] 0
      (by decide) (by decide) 1⟩
